import Mathlib

/-!
Shallow embedding of the agent-based epidemic simulators in
`src/SEIRD/seird.py`, `src/SIR/sir_class.py` and `src/SEIRS/seirs.py`.

Modelling conventions, shared by all three variants:

* `random.random()` draws are an injected list of rationals in `[0,1)`,
  consumed left to right exactly where the source calls `random.random()`
  (in particular a draw is consumed only when the short-circuit `and`
  in the contact check reaches it).
* `random.randint(0, b)` for agent placement is modelled as `r % (b+1)`
  on an injected natural number `r`, which has the same inclusive range.
* `random.sample(individuals, k)` is modelled by an injected list of the
  sampled indices.
* The source compares `math.sqrt(dx**2 + dy**2) <= PROXIMITY` on integer
  coordinates and an integer proximity; for a real square root this is
  equivalent to `0 ≤ PROXIMITY ∧ dx^2 + dy^2 ≤ PROXIMITY^2`, which is the
  decidable integer form used here.
* Python floats for the rates are modelled as rationals.
* The `while` loop of `simulate` is modelled with structural fuel
  `MAX_DAYS + 1` on top of the source's own conditions; the fuel never
  runs out before the source's `day <= MAX_DAYS` test fails, because the
  day counter starts at 0 and grows by one per iteration.
-/

inductive St
  | S
  | E
  | I
  | R
  | D
  | Immune
deriving DecidableEq, Repr

/-- One `random.random()` call: take the head of the injected draw list. -/
def nextDraw : List ℚ → ℚ × List ℚ
  | [] => (0, [])
  | d :: ds => (d, ds)

/-- Squared Euclidean distance between two integer grid positions. -/
def distSq (a b : ℕ × ℕ) : ℤ :=
  ((a.1 : ℤ) - b.1) ^ 2 + ((a.2 : ℤ) - b.2) ^ 2

/-- `math.sqrt (distSq a b) <= prox` for integer data, in decidable form. -/
def nearB (a b : ℕ × ℕ) (prox : ℤ) : Bool :=
  decide (0 ≤ prox) && decide (distSq a b ≤ prox * prox)

/-- `x * (1 - alpha)` — the transmissibility decay
`person.modified_beta *= (1 - self.ALPHA)` — written on numerators and
denominators so that the kernel can evaluate it on concrete inputs;
`decayMul_eq` proves it equal to that product. -/
def decayMul (x a : ℚ) : ℚ := mkRat (x.num * ((a.den : ℤ) - a.num)) (x.den * a.den)

namespace SEIRD

/-- `Individual.__init__` state of `src/SEIRD/seird.py` (visualization
fields omitted). -/
structure Individual where
  x : ℕ
  y : ℕ
  state : St
  exposed_duration : ℕ
  recovered_days : ℕ
  modified_beta : ℚ
  infection_count : ℕ
deriving DecidableEq, Repr

/-- Position of an individual, fixed at construction. -/
def Individual.pos (a : Individual) : ℕ × ℕ := (a.x, a.y)

/-- The parameters stored by `SEIRD.__init__`; the constructor performs no
validation, it only copies the arguments into these fields. -/
structure Config where
  POPULATION_SIZE : ℕ
  INITIAL_INFECTED : ℕ
  PROXIMITY : ℤ
  MAX_DAYS : ℕ
  ALPHA : ℚ
  BETA : ℚ
  GAMMA : ℚ
  SIGMA : ℚ
  ETA : ℚ
  MU : ℚ
  KAPPA : ℤ
  WIDTH : ℕ
  HEIGHT : ℕ
deriving Repr

/-- `Individual('S', beta, width=w, height=h)`: position from two
`randint` draws, state `'S'`, counters zero, `modified_beta = beta`. -/
def mkIndividual (beta : ℚ) (rx ry : ℕ) (width height : ℕ) : Individual :=
  { x := rx % (width + 1)
    y := ry % (height + 1)
    state := St.S
    exposed_duration := 0
    recovered_days := 0
    modified_beta := beta
    infection_count := 0 }

/-- The list comprehension building `self.individuals`. -/
def mkPopulation (p : Config) (posDraws : ℕ → ℕ × ℕ) : List Individual :=
  (List.range p.POPULATION_SIZE).map fun k =>
    mkIndividual p.BETA (posDraws k).1 (posDraws k).2 p.WIDTH p.HEIGHT

/-- `individual.state = 'I'` for the sampled individual at index `j`. -/
def seedOne (acc : List Individual) (j : ℕ) : List Individual :=
  match acc[j]? with
  | none => acc
  | some a => acc.set j { a with state := St.I }

/-- `for individual in random.sample(...): individual.state = 'I'`,
with the sampled objects given by their indices. -/
def seedInfected (inds : List Individual) (seeds : List ℕ) : List Individual :=
  seeds.foldl seedOne inds

/-- One iteration of the inner contact loop: the body of
`for other_person in self.individuals` for one index `j`. -/
def contactOne (p : Config) (person : Individual)
    (acc : List Individual × List ℚ) (j : ℕ) : List Individual × List ℚ :=
  match acc.1[j]? with
  | none => acc
  | some other =>
    if other.state = St.S then
      if nearB person.pos other.pos p.PROXIMITY then
        if (nextDraw acc.2).1 < person.modified_beta then
          (acc.1.set j { other with state := St.E }, (nextDraw acc.2).2)
        else (acc.1, (nextDraw acc.2).2)
      else acc
    else acc

/-- The full contact pass an infectious `person` runs over the population. -/
def contactPass (p : Config) (person : Individual)
    (start : List Individual × List ℚ) : List Individual × List ℚ :=
  (List.range start.1.length).foldl (contactOne p person) start

/-- The body of `for person in self.individuals` for one index `i`:
the per-agent daily state machine of `SEIRD.simulate`. -/
def stepAgentAt (p : Config) (acc : List Individual × List ℚ) (i : ℕ) :
    List Individual × List ℚ :=
  match acc.1[i]? with
  | none => acc
  | some person =>
    if person.state = St.E then
      let ed := person.exposed_duration + 1
      if (ed : ℚ) ≥ p.SIGMA then
        (acc.1.set i { person with
                         state := St.I
                         exposed_duration := 0
                         infection_count := person.infection_count + 1 }, acc.2)
      else (acc.1.set i { person with exposed_duration := ed }, acc.2)
    else if person.state = St.I then
      let r1 := (nextDraw acc.2).1
      let ds1 := (nextDraw acc.2).2
      if r1 < p.GAMMA then
        if (nextDraw ds1).1 < p.ETA then
          (acc.1.set i { person with state := St.D }, (nextDraw ds1).2)
        else (acc.1.set i { person with state := St.R }, (nextDraw ds1).2)
      else
        if (nextDraw ds1).1 < p.ETA then
          (acc.1.set i { person with state := St.D }, (nextDraw ds1).2)
        else
          let person' := { person with modified_beta := decayMul person.modified_beta p.ALPHA }
          contactPass p person' (acc.1.set i person', (nextDraw ds1).2)
    else if person.state = St.R then
      if (person.infection_count : ℤ) ≥ p.KAPPA then
        (acc.1.set i { person with state := St.Immune }, acc.2)
      else
        let rd := person.recovered_days + 1
        if (rd : ℚ) ≥ p.MU then
          (acc.1.set i { person with state := St.S, recovered_days := 0 }, acc.2)
        else (acc.1.set i { person with recovered_days := rd }, acc.2)
    else acc

/-- One simulated day: the `for person in self.individuals` loop. -/
def dayStep (p : Config) (inds : List Individual) (ds : List ℚ) :
    List Individual × List ℚ :=
  (List.range inds.length).foldl (stepAgentAt p) (inds, ds)

/-- Number of individuals currently in state `st`. -/
def countState (st : St) (inds : List Individual) : ℕ :=
  inds.countP fun a => decide (a.state = st)

/-- Observation: agent `k`'s position, when it exists. -/
def posAt (inds : List Individual) (k : ℕ) : Option (ℕ × ℕ) :=
  (inds[k]?).map Individual.pos

/-- Observation: agent `k`'s infection counter (0 when out of range). -/
def cntAt (inds : List Individual) (k : ℕ) : ℕ :=
  ((inds[k]?).map Individual.infection_count).getD 0

/-- Observation: agent `k`'s compartment, when it exists. -/
def stAt (inds : List Individual) (k : ℕ) : Option St :=
  (inds[k]?).map Individual.state

/-- Facts preserved by every single mutation the daily state machine
performs on an agent: the position is untouched and the infection counter
never decreases. -/
def agentEvol (a b : Individual) : Prop :=
  b.x = a.x ∧ b.y = a.y ∧ a.infection_count ≤ b.infection_count

/-- `agentEvol` lifted to whole populations, agent by agent. -/
def listEvol (l l' : List Individual) : Prop :=
  l'.length = l.length ∧
    ∀ (k : ℕ) (a : Individual), l[k]? = some a → ∃ b, l'[k]? = some b ∧ agentEvol a b

/-- No agent of the population is currently exposed. -/
def noE (inds : List Individual) : Prop :=
  ∀ (k : ℕ) (a : Individual), inds[k]? = some a → a.state ≠ St.E

/-- All agents occupy pairwise distinct positions. -/
def distinctPos (inds : List Individual) : Prop :=
  ∀ (j k : ℕ) (a b : Individual),
    j ≠ k → inds[j]? = some a → inds[k]? = some b → a.pos ≠ b.pos

/-- One record of the non-live time series: `SEIRD.simulate` appends to
`s_data, e_data, i_data, r_data, d_data` and, in that branch, to nothing
else (in particular not to `immune_data`). -/
structure Snap where
  s : ℕ
  e : ℕ
  i : ℕ
  r : ℕ
  d : ℕ
deriving DecidableEq, Repr

/-- The five counts appended at the end of a non-live day. -/
def mkSnap (inds : List Individual) : Snap :=
  { s := countState St.S inds
    e := countState St.E inds
    i := countState St.I inds
    r := countState St.R inds
    d := countState St.D inds }

/-- `any(person.state == 'I' or person.state == 'E' for person in ...)`. -/
def activeB (inds : List Individual) : Bool :=
  inds.any fun a => decide (a.state = St.I) || decide (a.state = St.E)

/-- The `while` loop of `SEIRD.simulate` (non-live branch), with fuel. -/
def simLoop (p : Config) :
    ℕ → ℕ → List Individual → List ℚ → List Snap →
      List Individual × List ℚ × List Snap
  | 0, _, inds, ds, ts => (inds, ds, ts)
  | fuel + 1, day, inds, ds, ts =>
    if activeB inds = true ∧ day ≤ p.MAX_DAYS then
      simLoop p fuel (day + 1) (dayStep p inds ds).1 (dayStep p inds ds).2
        (ts ++ [mkSnap (dayStep p inds ds).1])
    else (inds, ds, ts)

/-- `SEIRD.simulate(live_visualization=False)`: build the population, force
the sampled individuals to `'I'`, then run the day loop from day 0 with an
empty time series. -/
def simulate (p : Config) (posDraws : ℕ → ℕ × ℕ) (seeds : List ℕ)
    (ds : List ℚ) : List Individual × List ℚ × List Snap :=
  let inds := seedInfected (mkPopulation p posDraws) seeds
  simLoop p (p.MAX_DAYS + 1) 0 inds ds []

end SEIRD

namespace SIRm

/-- Module-level `width` of `src/SIR/sir_class.py`, used by the
`Individual` constructor (not the class's `WIDTH`). -/
def gwidth : ℕ := 800

/-- Module-level `height` of `src/SIR/sir_class.py`. -/
def gheight : ℕ := 600

/-- `Individual.__init__` of `src/SIR/sir_class.py` (visualization
fields omitted). -/
structure Individual where
  x : ℕ
  y : ℕ
  state : St
  modified_beta : ℚ
deriving DecidableEq, Repr

/-- Position of an individual, fixed at construction. -/
def Individual.pos (a : Individual) : ℕ × ℕ := (a.x, a.y)

/-- The parameters stored by `SIR.__init__`; no validation happens there. -/
structure Config where
  POPULATION_SIZE : ℕ
  INITIAL_INFECTED : ℕ
  PROXIMITY : ℤ
  MAX_DAYS : ℕ
  ALPHA : ℚ
  BETA : ℚ
  GAMMA : ℚ
deriving Repr

/-- `Individual('S', beta)`: position from two `randint` draws over the
module-level `width`/`height`, state `'S'`, `modified_beta = beta`. -/
def mkIndividual (beta : ℚ) (rx ry : ℕ) : Individual :=
  { x := rx % (gwidth + 1)
    y := ry % (gheight + 1)
    state := St.S
    modified_beta := beta }

/-- The list comprehension building `self.individuals`. -/
def mkPopulation (p : Config) (posDraws : ℕ → ℕ × ℕ) : List Individual :=
  (List.range p.POPULATION_SIZE).map fun k =>
    mkIndividual p.BETA (posDraws k).1 (posDraws k).2

/-- Seeding the sampled individuals to `'I'`, by index. -/
def seedInfected (inds : List Individual) (seeds : List ℕ) : List Individual :=
  seeds.foldl
    (fun acc j =>
      match acc[j]? with
      | none => acc
      | some a => acc.set j { a with state := St.I })
    inds

/-- One iteration of the inner contact loop; in the SIR variant a contact
turns a susceptible agent directly into `'I'`. -/
def contactOne (p : Config) (person : Individual)
    (acc : List Individual × List ℚ) (j : ℕ) : List Individual × List ℚ :=
  match acc.1[j]? with
  | none => acc
  | some other =>
    if other.state = St.S then
      if nearB person.pos other.pos p.PROXIMITY then
        if (nextDraw acc.2).1 < person.modified_beta then
          (acc.1.set j { other with state := St.I }, (nextDraw acc.2).2)
        else (acc.1, (nextDraw acc.2).2)
      else acc
    else acc

/-- The full contact pass an infectious `person` runs over the population. -/
def contactPass (p : Config) (person : Individual)
    (start : List Individual × List ℚ) : List Individual × List ℚ :=
  (List.range start.1.length).foldl (contactOne p person) start

/-- The body of `for person in self.individuals` for one index `i`:
only the `'I'` state acts in the SIR variant. -/
def stepAgentAt (p : Config) (acc : List Individual × List ℚ) (i : ℕ) :
    List Individual × List ℚ :=
  match acc.1[i]? with
  | none => acc
  | some person =>
    if person.state = St.I then
      if (nextDraw acc.2).1 < p.GAMMA then
        (acc.1.set i { person with state := St.R }, (nextDraw acc.2).2)
      else
        let person' := { person with modified_beta := decayMul person.modified_beta p.ALPHA }
        contactPass p person' (acc.1.set i person', (nextDraw acc.2).2)
    else acc

/-- One simulated day of `SIR.simulate`. -/
def dayStep (p : Config) (inds : List Individual) (ds : List ℚ) :
    List Individual × List ℚ :=
  (List.range inds.length).foldl (stepAgentAt p) (inds, ds)

/-- Number of individuals currently in state `st`. -/
def countState (st : St) (inds : List Individual) : ℕ :=
  inds.countP fun a => decide (a.state = st)

/-- One record of the SIR time series: `s_data, i_data, r_data`. -/
structure Snap where
  s : ℕ
  i : ℕ
  r : ℕ
deriving DecidableEq, Repr

/-- The three counts appended at the end of a day. -/
def mkSnap (inds : List Individual) : Snap :=
  { s := countState St.S inds
    i := countState St.I inds
    r := countState St.R inds }

/-- `any(person.state == 'I' for person in self.individuals)`. -/
def activeB (inds : List Individual) : Bool :=
  inds.any fun a => decide (a.state = St.I)

/-- The `while` loop of `SIR.simulate` (non-live branch), with fuel. -/
def simLoop (p : Config) :
    ℕ → ℕ → List Individual → List ℚ → List Snap →
      List Individual × List ℚ × List Snap
  | 0, _, inds, ds, ts => (inds, ds, ts)
  | fuel + 1, day, inds, ds, ts =>
    if activeB inds = true ∧ day ≤ p.MAX_DAYS then
      simLoop p fuel (day + 1) (dayStep p inds ds).1 (dayStep p inds ds).2
        (ts ++ [mkSnap (dayStep p inds ds).1])
    else (inds, ds, ts)

/-- `SIR.simulate(live_visualization=False)`. -/
def simulate (p : Config) (posDraws : ℕ → ℕ × ℕ) (seeds : List ℕ)
    (ds : List ℚ) : List Individual × List ℚ × List Snap :=
  let inds := seedInfected (mkPopulation p posDraws) seeds
  simLoop p (p.MAX_DAYS + 1) 0 inds ds []

end SIRm

namespace SEIRS

/-- `Individual.__init__` of `src/SEIRS/seirs.py` (visualization fields
omitted); unlike the SEIRD variant there is no `infection_count`. -/
structure Individual where
  x : ℕ
  y : ℕ
  state : St
  exposed_duration : ℕ
  recovered_days : ℕ
  modified_beta : ℚ
deriving DecidableEq, Repr

/-- Position of an individual, fixed at construction. -/
def Individual.pos (a : Individual) : ℕ × ℕ := (a.x, a.y)

/-- The parameters stored by `SEIRS.__init__`; no validation happens there. -/
structure Config where
  POPULATION_SIZE : ℕ
  INITIAL_INFECTED : ℕ
  PROXIMITY : ℤ
  MAX_DAYS : ℕ
  ALPHA : ℚ
  BETA : ℚ
  GAMMA : ℚ
  SIGMA : ℚ
  MU : ℚ
  WIDTH : ℕ
  HEIGHT : ℕ
deriving Repr

/-- `Individual('S', beta, width=w, height=h)`. -/
def mkIndividual (beta : ℚ) (rx ry : ℕ) (width height : ℕ) : Individual :=
  { x := rx % (width + 1)
    y := ry % (height + 1)
    state := St.S
    exposed_duration := 0
    recovered_days := 0
    modified_beta := beta }

/-- One iteration of the inner contact loop of the SEIRS variant. -/
def contactOne (p : Config) (person : Individual)
    (acc : List Individual × List ℚ) (j : ℕ) : List Individual × List ℚ :=
  match acc.1[j]? with
  | none => acc
  | some other =>
    if other.state = St.S then
      if nearB person.pos other.pos p.PROXIMITY then
        if (nextDraw acc.2).1 < person.modified_beta then
          (acc.1.set j { other with state := St.E }, (nextDraw acc.2).2)
        else (acc.1, (nextDraw acc.2).2)
      else acc
    else acc

/-- The full contact pass an infectious `person` runs over the population. -/
def contactPass (p : Config) (person : Individual)
    (start : List Individual × List ℚ) : List Individual × List ℚ :=
  (List.range start.1.length).foldl (contactOne p person) start

/-- The per-agent daily state machine of `SEIRS.simulate`: exposed agents
incubate, infectious agents recover or decay-and-contact, recovered agents
wane back to susceptible after `MU` days. -/
def stepAgentAt (p : Config) (acc : List Individual × List ℚ) (i : ℕ) :
    List Individual × List ℚ :=
  match acc.1[i]? with
  | none => acc
  | some person =>
    if person.state = St.E then
      let ed := person.exposed_duration + 1
      if (ed : ℚ) ≥ p.SIGMA then
        (acc.1.set i { person with state := St.I, exposed_duration := 0 }, acc.2)
      else (acc.1.set i { person with exposed_duration := ed }, acc.2)
    else if person.state = St.I then
      if (nextDraw acc.2).1 < p.GAMMA then
        (acc.1.set i { person with state := St.R }, (nextDraw acc.2).2)
      else
        let person' := { person with modified_beta := decayMul person.modified_beta p.ALPHA }
        contactPass p person' (acc.1.set i person', (nextDraw acc.2).2)
    else if person.state = St.R then
      let rd := person.recovered_days + 1
      if (rd : ℚ) ≥ p.MU then
        (acc.1.set i { person with state := St.S, recovered_days := 0 }, acc.2)
      else (acc.1.set i { person with recovered_days := rd }, acc.2)
    else acc

/-- One simulated day of `SEIRS.simulate`. -/
def dayStep (p : Config) (inds : List Individual) (ds : List ℚ) :
    List Individual × List ℚ :=
  (List.range inds.length).foldl (stepAgentAt p) (inds, ds)

/-- Number of individuals currently in state `st`. -/
def countState (st : St) (inds : List Individual) : ℕ :=
  inds.countP fun a => decide (a.state = st)

/-- The end-of-day recording of the live-visualization branch of
`SEIRS.simulate` (source lines 294-312): the four counts are computed
per state, then appended in source order, which sends
`exposed_count` to `r_data` and `recovered_count` to `e_data`. -/
def recordLive (inds : List Individual)
    (sData iData rData eData : List ℕ) :
    List ℕ × List ℕ × List ℕ × List ℕ :=
  (sData ++ [countState St.S inds],
   iData ++ [countState St.I inds],
   rData ++ [countState St.E inds],
   eData ++ [countState St.R inds])

/-- The end-of-day recording of the non-live branch of `SEIRS.simulate`
(source lines 227-238): each series receives its own state's count. -/
def recordPlain (inds : List Individual)
    (sData iData rData eData : List ℕ) :
    List ℕ × List ℕ × List ℕ × List ℕ :=
  (sData ++ [countState St.S inds],
   iData ++ [countState St.I inds],
   rData ++ [countState St.R inds],
   eData ++ [countState St.E inds])

end SEIRS

/-! ### General lemmas -/

theorem decayMul_eq (x a : ℚ) : decayMul x a = x * (1 - a) := by
  have hx : ((x.den : ℚ)) ≠ 0 := Nat.cast_ne_zero.mpr x.den_nz
  have ha : ((a.den : ℚ)) ≠ 0 := Nat.cast_ne_zero.mpr a.den_nz
  have hxn := (div_eq_iff hx).mp (Rat.num_div_den x)
  have han := (div_eq_iff ha).mp (Rat.num_div_den a)
  rw [decayMul, Rat.mkRat_eq_divInt, Rat.divInt_eq_div]
  push_cast
  rw [div_eq_iff (mul_ne_zero hx ha), hxn, han]
  ring

theorem foldl_pres {α β : Type _} (f : β → α → β) (P : β → Prop)
    (hP : ∀ b a, P b → P (f b a)) :
    ∀ (l : List α) (b : β), P b → P (l.foldl f b) := by
  intro l
  induction l with
  | nil => intro b hb; exact hb
  | cons a t ih => intro b hb; exact ih (f b a) (hP b a hb)

/-! ### Population evolution lemmas for the SEIRD variant -/

theorem seird_agentEvol_refl (a : SEIRD.Individual) : SEIRD.agentEvol a a :=
  ⟨rfl, rfl, le_refl _⟩

theorem seird_listEvol_refl (l : List SEIRD.Individual) : SEIRD.listEvol l l :=
  ⟨rfl, fun k a h => ⟨a, h, seird_agentEvol_refl a⟩⟩

theorem seird_agentEvol_trans {a b c : SEIRD.Individual}
    (h1 : SEIRD.agentEvol a b) (h2 : SEIRD.agentEvol b c) : SEIRD.agentEvol a c :=
  ⟨h2.1.trans h1.1, h2.2.1.trans h1.2.1, h1.2.2.trans h2.2.2⟩

theorem seird_listEvol_trans {l1 l2 l3 : List SEIRD.Individual}
    (h1 : SEIRD.listEvol l1 l2) (h2 : SEIRD.listEvol l2 l3) : SEIRD.listEvol l1 l3 := by
  refine ⟨h2.1.trans h1.1, fun k a hk => ?_⟩
  obtain ⟨b, hb, hab⟩ := h1.2 k a hk
  obtain ⟨c, hc, hbc⟩ := h2.2 k b hb
  exact ⟨c, hc, seird_agentEvol_trans hab hbc⟩

theorem seird_listEvol_set {l : List SEIRD.Individual} {j : ℕ} {a b : SEIRD.Individual}
    (h : l[j]? = some a) (hab : SEIRD.agentEvol a b) : SEIRD.listEvol l (l.set j b) := by
  refine ⟨l.length_set j b, fun k c hk => ?_⟩
  by_cases hjk : j = k
  · subst hjk
    have hlen : j < l.length := by
      by_contra hge
      simp [List.getElem?_eq_none (le_of_not_lt hge)] at h
    have : c = a := by
      rw [h] at hk
      exact (Option.some.injEq _ _ ▸ hk).symm
    refine ⟨b, ?_, this ▸ hab⟩
    simp [List.getElem?_set, hlen]
  · refine ⟨c, ?_, seird_agentEvol_refl c⟩
    simp [List.getElem?_set, hjk, hk]

theorem seird_contactOne_eq_none {acc : List SEIRD.Individual × List ℚ} {j : ℕ}
    (p : SEIRD.Config) (person : SEIRD.Individual) (h : acc.1[j]? = none) :
    SEIRD.contactOne p person acc j = acc := by
  unfold SEIRD.contactOne
  rw [h]

theorem seird_contactOne_eq_some {acc : List SEIRD.Individual × List ℚ} {j : ℕ}
    {other : SEIRD.Individual} (p : SEIRD.Config) (person : SEIRD.Individual)
    (h : acc.1[j]? = some other) :
    SEIRD.contactOne p person acc j =
      if other.state = St.S then
        if nearB person.pos other.pos p.PROXIMITY then
          if (nextDraw acc.2).1 < person.modified_beta then
            (acc.1.set j { other with state := St.E }, (nextDraw acc.2).2)
          else (acc.1, (nextDraw acc.2).2)
        else acc
      else acc := by
  unfold SEIRD.contactOne
  rw [h]

theorem seird_stepAgentAt_eq_none {acc : List SEIRD.Individual × List ℚ} {i : ℕ}
    (p : SEIRD.Config) (h : acc.1[i]? = none) :
    SEIRD.stepAgentAt p acc i = acc := by
  unfold SEIRD.stepAgentAt
  rw [h]

theorem seird_stepAgentAt_eq_some {acc : List SEIRD.Individual × List ℚ} {i : ℕ}
    {person : SEIRD.Individual} (p : SEIRD.Config) (h : acc.1[i]? = some person) :
    SEIRD.stepAgentAt p acc i =
      if person.state = St.E then
        if ((person.exposed_duration + 1 : ℕ) : ℚ) ≥ p.SIGMA then
          (acc.1.set i { person with
                           state := St.I
                           exposed_duration := 0
                           infection_count := person.infection_count + 1 }, acc.2)
        else (acc.1.set i { person with exposed_duration := person.exposed_duration + 1 }, acc.2)
      else if person.state = St.I then
        if (nextDraw acc.2).1 < p.GAMMA then
          if (nextDraw (nextDraw acc.2).2).1 < p.ETA then
            (acc.1.set i { person with state := St.D }, (nextDraw (nextDraw acc.2).2).2)
          else (acc.1.set i { person with state := St.R }, (nextDraw (nextDraw acc.2).2).2)
        else
          if (nextDraw (nextDraw acc.2).2).1 < p.ETA then
            (acc.1.set i { person with state := St.D }, (nextDraw (nextDraw acc.2).2).2)
          else
            SEIRD.contactPass p
              { person with modified_beta := decayMul person.modified_beta p.ALPHA }
              (acc.1.set i
                 { person with modified_beta := decayMul person.modified_beta p.ALPHA },
               (nextDraw (nextDraw acc.2).2).2)
      else if person.state = St.R then
        if (person.infection_count : ℤ) ≥ p.KAPPA then
          (acc.1.set i { person with state := St.Immune }, acc.2)
        else
          if ((person.recovered_days + 1 : ℕ) : ℚ) ≥ p.MU then
            (acc.1.set i { person with state := St.S, recovered_days := 0 }, acc.2)
          else (acc.1.set i { person with recovered_days := person.recovered_days + 1 }, acc.2)
      else acc := by
  unfold SEIRD.stepAgentAt
  rw [h]

theorem seird_contactOne_evol (p : SEIRD.Config) (person : SEIRD.Individual)
    (acc : List SEIRD.Individual × List ℚ) (j : ℕ) :
    SEIRD.listEvol acc.1 (SEIRD.contactOne p person acc j).1 := by
  cases h : acc.1[j]? with
  | none => rw [seird_contactOne_eq_none p person h]; exact seird_listEvol_refl _
  | some other =>
    rw [seird_contactOne_eq_some p person h]
    split_ifs
    · exact seird_listEvol_set h ⟨rfl, rfl, le_refl _⟩
    · exact seird_listEvol_refl _
    · exact seird_listEvol_refl _
    · exact seird_listEvol_refl _

theorem seird_contactPass_evol (p : SEIRD.Config) (person : SEIRD.Individual)
    (start : List SEIRD.Individual × List ℚ) :
    SEIRD.listEvol start.1 (SEIRD.contactPass p person start).1 := by
  unfold SEIRD.contactPass
  exact foldl_pres (SEIRD.contactOne p person) (fun acc => SEIRD.listEvol start.1 acc.1)
    (fun b a hb => seird_listEvol_trans hb (seird_contactOne_evol p person b a))
    (List.range start.1.length) start (seird_listEvol_refl start.1)

theorem seird_stepAgentAt_evol (p : SEIRD.Config)
    (acc : List SEIRD.Individual × List ℚ) (i : ℕ) :
    SEIRD.listEvol acc.1 (SEIRD.stepAgentAt p acc i).1 := by
  cases h : acc.1[i]? with
  | none => rw [seird_stepAgentAt_eq_none p h]; exact seird_listEvol_refl _
  | some person =>
    rw [seird_stepAgentAt_eq_some p h]
    split_ifs
    · exact seird_listEvol_set h ⟨rfl, rfl, Nat.le_succ _⟩
    · exact seird_listEvol_set h ⟨rfl, rfl, le_refl _⟩
    · exact seird_listEvol_set h ⟨rfl, rfl, le_refl _⟩
    · exact seird_listEvol_set h ⟨rfl, rfl, le_refl _⟩
    · exact seird_listEvol_set h ⟨rfl, rfl, le_refl _⟩
    · refine seird_listEvol_trans
        (seird_listEvol_set
          (b := { person with modified_beta := decayMul person.modified_beta p.ALPHA })
          h ⟨rfl, rfl, le_refl _⟩) ?_
      exact seird_contactPass_evol p _ (_, _)
    · exact seird_listEvol_set h ⟨rfl, rfl, le_refl _⟩
    · exact seird_listEvol_set h ⟨rfl, rfl, le_refl _⟩
    · exact seird_listEvol_set h ⟨rfl, rfl, le_refl _⟩
    · exact seird_listEvol_refl _

theorem seird_dayStep_evol (p : SEIRD.Config) (inds : List SEIRD.Individual)
    (ds : List ℚ) : SEIRD.listEvol inds (SEIRD.dayStep p inds ds).1 := by
  unfold SEIRD.dayStep
  exact foldl_pres (SEIRD.stepAgentAt p) (fun acc => SEIRD.listEvol inds acc.1)
    (fun b a hb => seird_listEvol_trans hb (seird_stepAgentAt_evol p b a))
    (List.range inds.length) (inds, ds) (seird_listEvol_refl inds)

theorem seird_simLoop_evol (p : SEIRD.Config) :
    ∀ (fuel day : ℕ) (inds : List SEIRD.Individual) (ds : List ℚ)
      (ts : List SEIRD.Snap),
      SEIRD.listEvol inds (SEIRD.simLoop p fuel day inds ds ts).1 := by
  intro fuel
  induction fuel with
  | zero => intro day inds ds ts; exact seird_listEvol_refl _
  | succ n ih =>
    intro day inds ds ts
    rw [SEIRD.simLoop]
    split
    · exact seird_listEvol_trans (seird_dayStep_evol p inds ds) (ih _ _ _ _)
    · exact seird_listEvol_refl _

theorem seird_simLoop_stop (p : SEIRD.Config) (fuel day : ℕ)
    (inds : List SEIRD.Individual) (ds : List ℚ) (ts : List SEIRD.Snap)
    (h : SEIRD.activeB inds = false) :
    SEIRD.simLoop p fuel day inds ds ts = (inds, ds, ts) := by
  cases fuel with
  | zero => rfl
  | succ n => simp [SEIRD.simLoop, h]

theorem seird_simLoop_len (p : SEIRD.Config) :
    ∀ (fuel day : ℕ) (inds : List SEIRD.Individual) (ds : List ℚ)
      (ts : List SEIRD.Snap),
      ((SEIRD.simLoop p fuel day inds ds ts).2.2).length ≤
        ts.length + (p.MAX_DAYS + 1 - day) := by
  intro fuel
  induction fuel with
  | zero => intro day inds ds ts; simp [SEIRD.simLoop]
  | succ n ih =>
    intro day inds ds ts
    rw [SEIRD.simLoop]
    split
    · rename_i hcond
      have hday : day ≤ p.MAX_DAYS := hcond.2
      have h2 := ih (day + 1) (SEIRD.dayStep p inds ds).1 (SEIRD.dayStep p inds ds).2
        (ts ++ [SEIRD.mkSnap (SEIRD.dayStep p inds ds).1])
      simp only [List.length_append, List.length_cons, List.length_nil] at h2 ⊢
      omega
    · simp

theorem sirm_simLoop_stop (p : SIRm.Config) (fuel day : ℕ)
    (inds : List SIRm.Individual) (ds : List ℚ) (ts : List SIRm.Snap)
    (h : SIRm.activeB inds = false) :
    SIRm.simLoop p fuel day inds ds ts = (inds, ds, ts) := by
  cases fuel with
  | zero => rfl
  | succ n => simp [SIRm.simLoop, h]

theorem sirm_simLoop_len (p : SIRm.Config) :
    ∀ (fuel day : ℕ) (inds : List SIRm.Individual) (ds : List ℚ)
      (ts : List SIRm.Snap),
      ((SIRm.simLoop p fuel day inds ds ts).2.2).length ≤
        ts.length + (p.MAX_DAYS + 1 - day) := by
  intro fuel
  induction fuel with
  | zero => intro day inds ds ts; simp [SIRm.simLoop]
  | succ n ih =>
    intro day inds ds ts
    rw [SIRm.simLoop]
    split
    · rename_i hcond
      have hday : day ≤ p.MAX_DAYS := hcond.2
      have h2 := ih (day + 1) (SIRm.dayStep p inds ds).1 (SIRm.dayStep p inds ds).2
        (ts ++ [SIRm.mkSnap (SIRm.dayStep p inds ds).1])
      simp only [List.length_append, List.length_cons, List.length_nil] at h2 ⊢
      omega
    · simp

theorem getElem?_set_of_some {α : Type _} {l : List α} {j : ℕ} {a : α}
    (h : l[j]? = some a) (b : α) (k : ℕ) :
    (l.set j b)[k]? = if j = k then some b else l[k]? := by
  have hlen : j < l.length := by
    by_contra hge
    rw [List.getElem?_eq_none (le_of_not_lt hge)] at h
    exact Option.noConfusion h
  rw [List.getElem?_set]
  simp [hlen]

theorem seird_listEvol_posAt {l l' : List SEIRD.Individual}
    (h : SEIRD.listEvol l l') (k : ℕ) : SEIRD.posAt l' k = SEIRD.posAt l k := by
  cases hk : l[k]? with
  | some a =>
    obtain ⟨b, hb, hab⟩ := h.2 k a hk
    simp [SEIRD.posAt, hk, hb, SEIRD.Individual.pos, hab.1, hab.2.1]
  | none =>
    have hlen : l.length ≤ k := by
      by_contra hlt
      rw [List.getElem?_eq_getElem (lt_of_not_le hlt)] at hk
      exact Option.noConfusion hk
    have h2 : l'[k]? = none := List.getElem?_eq_none (h.1 ▸ hlen)
    simp [SEIRD.posAt, hk, h2]

theorem seird_listEvol_cntAt {l l' : List SEIRD.Individual}
    (h : SEIRD.listEvol l l') (k : ℕ) : SEIRD.cntAt l k ≤ SEIRD.cntAt l' k := by
  cases hk : l[k]? with
  | some a =>
    obtain ⟨b, hb, hab⟩ := h.2 k a hk
    simp only [SEIRD.cntAt, hk, hb, Option.map_some, Option.getD_some]
    exact hab.2.2
  | none => simp [SEIRD.cntAt, hk]

theorem seird_seedOne_frame (acc : List SEIRD.Individual) (j : ℕ) :
    (SEIRD.seedOne acc j).length = acc.length ∧
    (∀ k, SEIRD.posAt (SEIRD.seedOne acc j) k = SEIRD.posAt acc k) ∧
    (∀ k, SEIRD.cntAt (SEIRD.seedOne acc j) k = SEIRD.cntAt acc k) := by
  unfold SEIRD.seedOne
  cases hj : acc[j]? with
  | none => exact ⟨rfl, fun _ => rfl, fun _ => rfl⟩
  | some a =>
    refine ⟨List.length_set _ _ _, fun k => ?_, fun k => ?_⟩
    · rw [SEIRD.posAt, SEIRD.posAt, getElem?_set_of_some hj]
      by_cases hjk : j = k
      · subst hjk
        simp [hj, SEIRD.Individual.pos]
      · simp [hjk]
    · rw [SEIRD.cntAt, SEIRD.cntAt, getElem?_set_of_some hj]
      by_cases hjk : j = k
      · subst hjk
        simp [hj]
      · simp [hjk]

theorem seird_seedInfected_frame (inds : List SEIRD.Individual) (seeds : List ℕ) :
    (SEIRD.seedInfected inds seeds).length = inds.length ∧
    (∀ k, SEIRD.posAt (SEIRD.seedInfected inds seeds) k = SEIRD.posAt inds k) ∧
    (∀ k, SEIRD.cntAt (SEIRD.seedInfected inds seeds) k = SEIRD.cntAt inds k) := by
  unfold SEIRD.seedInfected
  refine foldl_pres SEIRD.seedOne
    (fun acc => acc.length = inds.length ∧
      (∀ k, SEIRD.posAt acc k = SEIRD.posAt inds k) ∧
      (∀ k, SEIRD.cntAt acc k = SEIRD.cntAt inds k)) ?_ seeds inds
    ⟨rfl, fun _ => rfl, fun _ => rfl⟩
  intro b j hb
  obtain ⟨h1, h2, h3⟩ := seird_seedOne_frame b j
  exact ⟨h1.trans hb.1, fun k => (h2 k).trans (hb.2.1 k), fun k => (h3 k).trans (hb.2.2 k)⟩

theorem seird_mkPopulation_get (p : SEIRD.Config) (pd : ℕ → ℕ × ℕ) (k : ℕ) :
    (SEIRD.mkPopulation p pd)[k]? =
      if k < p.POPULATION_SIZE then
        some (SEIRD.mkIndividual p.BETA (pd k).1 (pd k).2 p.WIDTH p.HEIGHT)
      else none := by
  unfold SEIRD.mkPopulation
  by_cases hk : k < p.POPULATION_SIZE
  · simp [List.getElem?_map, List.getElem?_range, hk]
  · rw [if_neg hk]
    have : (List.range p.POPULATION_SIZE).length ≤ k := by
      simpa using le_of_not_lt hk
    simp [List.getElem?_map, List.getElem?_eq_none this]

theorem seird_mkPopulation_cnt (p : SEIRD.Config) (pd : ℕ → ℕ × ℕ) (k : ℕ) :
    SEIRD.cntAt (SEIRD.mkPopulation p pd) k = 0 := by
  rw [SEIRD.cntAt, seird_mkPopulation_get]
  split
  · simp [SEIRD.mkIndividual]
  · simp

theorem seird_mkPopulation_inactive (p : SEIRD.Config) (pd : ℕ → ℕ × ℕ) :
    SEIRD.activeB (SEIRD.mkPopulation p pd) = false := by
  rw [SEIRD.activeB, List.any_eq_false]
  intro a ha
  rw [SEIRD.mkPopulation, List.mem_map] at ha
  obtain ⟨k, _, hk⟩ := ha
  rw [← hk]
  simp [SEIRD.mkIndividual]

theorem sirm_mkPopulation_inactive (p : SIRm.Config) (pd : ℕ → ℕ × ℕ) :
    SIRm.activeB (SIRm.mkPopulation p pd) = false := by
  rw [SIRm.activeB, List.any_eq_false]
  intro a ha
  rw [SIRm.mkPopulation, List.mem_map] at ha
  obtain ⟨k, _, hk⟩ := ha
  rw [← hk]
  simp [SIRm.mkIndividual]

theorem distSq_nonneg (a b : ℕ × ℕ) : 0 ≤ distSq a b := by
  unfold distSq
  positivity

theorem distSq_eq_zero_iff (a b : ℕ × ℕ) : distSq a b = 0 ↔ a = b := by
  unfold distSq
  constructor
  · intro h
    have h1 : ((a.1 : ℤ) - b.1) ^ 2 = 0 := by
      nlinarith [sq_nonneg ((a.1 : ℤ) - b.1), sq_nonneg ((a.2 : ℤ) - b.2)]
    have h2 : ((a.2 : ℤ) - b.2) ^ 2 = 0 := by
      nlinarith [sq_nonneg ((a.1 : ℤ) - b.1), sq_nonneg ((a.2 : ℤ) - b.2)]
    have e1 : (a.1 : ℤ) = b.1 := by nlinarith [sq_nonneg ((a.1 : ℤ) - b.1)]
    have e2 : (a.2 : ℤ) = b.2 := by nlinarith [sq_nonneg ((a.2 : ℤ) - b.2)]
    have : a.1 = b.1 := by exact_mod_cast e1
    have : a.2 = b.2 := by exact_mod_cast e2
    exact Prod.ext (by assumption) (by assumption)
  · rintro rfl
    ring

theorem nearB_zero_iff (a b : ℕ × ℕ) : nearB a b 0 = true ↔ a = b := by
  unfold nearB
  rw [Bool.and_eq_true, decide_eq_true_iff, decide_eq_true_iff]
  constructor
  · intro h
    exact (distSq_eq_zero_iff a b).mp (le_antisymm (by simpa using h.2) (distSq_nonneg a b))
  · rintro rfl
    exact ⟨le_refl 0, by simp [le_of_eq ((distSq_eq_zero_iff a a).mpr rfl)]⟩

theorem nearB_zero_of_ne {a b : ℕ × ℕ} (h : a ≠ b) : nearB a b 0 = false := by
  by_contra hne
  exact h ((nearB_zero_iff a b).mp (Bool.of_not_eq_false hne))

theorem seird_stAt_set {l : List SEIRD.Individual} {j : ℕ} {a : SEIRD.Individual}
    (h : l[j]? = some a) (b : SEIRD.Individual) (k : ℕ) :
    SEIRD.stAt (l.set j b) k = if j = k then some b.state else SEIRD.stAt l k := by
  rw [SEIRD.stAt, getElem?_set_of_some h, SEIRD.stAt]
  by_cases hjk : j = k
  · simp [hjk]
  · simp [hjk]

theorem seird_noE_set {l : List SEIRD.Individual} (hE : SEIRD.noE l) {j : ℕ}
    {b : SEIRD.Individual} (hb : b.state ≠ St.E) : SEIRD.noE (l.set j b) := by
  intro k c hk
  rw [List.getElem?_set] at hk
  by_cases hjk : j = k
  · rw [if_pos hjk] at hk
    by_cases hlen : j < l.length
    · rw [if_pos hlen] at hk
      cases hk
      exact hb
    · rw [if_neg hlen] at hk
      exact Option.noConfusion hk
  · rw [if_neg hjk] at hk
    exact hE k c hk

theorem seird_contactOne_id (p : SEIRD.Config) (person : SEIRD.Individual)
    (acc : List SEIRD.Individual × List ℚ) (j : ℕ)
    (h : ∀ (k : ℕ) (o : SEIRD.Individual),
      acc.1[k]? = some o → o.state = St.S →
        nearB person.pos o.pos p.PROXIMITY = false) :
    SEIRD.contactOne p person acc j = acc := by
  cases hj : acc.1[j]? with
  | none => exact seird_contactOne_eq_none p person hj
  | some other =>
    rw [seird_contactOne_eq_some p person hj]
    by_cases hs : other.state = St.S
    · rw [if_pos hs, if_neg]
      rw [h j other hj hs]
      exact Bool.false_ne_true
    · rw [if_neg hs]

theorem seird_contactPass_id (p : SEIRD.Config) (person : SEIRD.Individual)
    (start : List SEIRD.Individual × List ℚ)
    (h : ∀ (k : ℕ) (o : SEIRD.Individual),
      start.1[k]? = some o → o.state = St.S →
        nearB person.pos o.pos p.PROXIMITY = false) :
    SEIRD.contactPass p person start = start := by
  unfold SEIRD.contactPass
  refine foldl_pres (SEIRD.contactOne p person) (fun b => b = start) ?_
    (List.range start.1.length) start rfl
  intro b j hb
  subst hb
  exact seird_contactOne_id p person b j h

theorem seird_posAt_some {inds : List SEIRD.Individual} {k : ℕ} {q : ℕ × ℕ}
    (h : SEIRD.posAt inds k = some q) :
    ∃ a, inds[k]? = some a ∧ a.pos = q := by
  rw [SEIRD.posAt] at h
  cases hk : inds[k]? with
  | none => rw [hk] at h; exact Option.noConfusion h
  | some a =>
    rw [hk] at h
    exact ⟨a, rfl, Option.some.inj h⟩

theorem seird_stepAgentAt_radius0 (p : SEIRD.Config) (hp : p.PROXIMITY = 0)
    (inds : List SEIRD.Individual) (hD : SEIRD.distinctPos inds)
    (acc : List SEIRD.Individual × List ℚ) (i : ℕ)
    (hEvol : SEIRD.listEvol inds acc.1) (hE : SEIRD.noE acc.1)
    (hS : ∀ k, SEIRD.stAt inds k = some St.S → SEIRD.stAt acc.1 k = some St.S) :
    SEIRD.listEvol inds (SEIRD.stepAgentAt p acc i).1 ∧
    SEIRD.noE (SEIRD.stepAgentAt p acc i).1 ∧
    (∀ k, SEIRD.stAt inds k = some St.S →
      SEIRD.stAt (SEIRD.stepAgentAt p acc i).1 k = some St.S) := by
  have hEvol' : SEIRD.listEvol inds (SEIRD.stepAgentAt p acc i).1 :=
    seird_listEvol_trans hEvol (seird_stepAgentAt_evol p acc i)
  cases hI : acc.1[i]? with
  | none =>
    rw [seird_stepAgentAt_eq_none p hI]
    exact ⟨hEvol, hE, hS⟩
  | some person =>
    have hsetS : ∀ (b : SEIRD.Individual), person.state ≠ St.S →
        ∀ k, SEIRD.stAt inds k = some St.S →
          SEIRD.stAt (acc.1.set i b) k = some St.S := by
      intro b hpS k hk
      rw [seird_stAt_set hI b k]
      by_cases hik : i = k
      · subst hik
        exfalso
        have h2 := hS i hk
        rw [SEIRD.stAt, hI] at h2
        exact hpS (Option.some.inj h2)
      · rw [if_neg hik]
        exact hS k hk
    have hpersonE : person.state ≠ St.E := hE i person hI
    refine ⟨hEvol', ?_⟩
    rw [seird_stepAgentAt_eq_some p hI]
    rw [seird_stepAgentAt_eq_some p hI] at hEvol'
    split_ifs with h1 h2 h3 h4 h5 h6 h7 h8 h9
    · exact absurd h1 hpersonE
    · exact absurd h1 hpersonE
    · exact ⟨seird_noE_set hE (by simp), hsetS _ (by rw [h3]; simp)⟩
    · exact ⟨seird_noE_set hE (by simp), hsetS _ (by rw [h3]; simp)⟩
    · exact ⟨seird_noE_set hE (by simp), hsetS _ (by rw [h3]; simp)⟩
    · -- the contact branch: with radius 0 and distinct positions, the
      -- whole contact pass is the identity
      have hid := seird_contactPass_id p
        { person with modified_beta := decayMul person.modified_beta p.ALPHA }
        (acc.1.set i { person with modified_beta := decayMul person.modified_beta p.ALPHA },
         (nextDraw (nextDraw acc.2).2).2) ?_
      · rw [hid]
        refine ⟨seird_noE_set hE (by simpa using (h3 ▸ (by simp) : person.state ≠ St.E)), ?_⟩
        exact hsetS _ (by rw [h3]; simp)
      · intro k o hk hoS
        rw [getElem?_set_of_some hI _] at hk
        by_cases hik : i = k
        · rw [if_pos hik] at hk
          have ho := Option.some.inj hk
          exfalso
          rw [← ho] at hoS
          simp only at hoS
          rw [h3] at hoS
          exact St.noConfusion hoS
        · rw [if_neg hik] at hk
          have hpk := seird_listEvol_posAt hEvol k
          have hpi := seird_listEvol_posAt hEvol i
          simp only [SEIRD.posAt, hk, Option.map] at hpk
          simp only [SEIRD.posAt, hI, Option.map] at hpi
          obtain ⟨ak, hak, hakpos⟩ := seird_posAt_some hpk.symm
          obtain ⟨ai, hai, haipos⟩ := seird_posAt_some hpi.symm
          have hne := hD i k ai ak hik hai hak
          rw [haipos, hakpos] at hne
          rw [hp]
          exact nearB_zero_of_ne (by simpa using hne)
    · exact ⟨seird_noE_set hE (by simp), hsetS _ (by rw [h7]; simp)⟩
    · exact ⟨seird_noE_set hE (by simp), hsetS _ (by rw [h7]; simp)⟩
    · exact ⟨seird_noE_set hE (by simp [h7]), hsetS _ (by rw [h7]; simp)⟩
    · exact ⟨hE, hS⟩

theorem seird_countE_zero {inds : List SEIRD.Individual} (h : SEIRD.noE inds) :
    SEIRD.countState St.E inds = 0 := by
  rw [SEIRD.countState, List.countP_eq_zero]
  intro a ha
  obtain ⟨k, hk⟩ := List.mem_iff_getElem?.mp ha
  simpa using h k a hk

theorem seird_distinctPos_of_evol {l l' : List SEIRD.Individual}
    (h : SEIRD.listEvol l l') (hD : SEIRD.distinctPos l) : SEIRD.distinctPos l' := by
  intro j k a b hjk hj hk
  have h1 := seird_listEvol_posAt h j
  have h2 := seird_listEvol_posAt h k
  simp only [SEIRD.posAt, hj, Option.map] at h1
  simp only [SEIRD.posAt, hk, Option.map] at h2
  obtain ⟨aj, haj, hajpos⟩ := seird_posAt_some h1.symm
  obtain ⟨ak, hak, hakpos⟩ := seird_posAt_some h2.symm
  have h3 := hD j k aj ak hjk haj hak
  rw [hajpos, hakpos] at h3
  exact h3

theorem seird_seedOne_eq_none {acc : List SEIRD.Individual} {j : ℕ}
    (h : acc[j]? = none) : SEIRD.seedOne acc j = acc := by
  unfold SEIRD.seedOne
  rw [h]

theorem seird_seedOne_eq_some {acc : List SEIRD.Individual} {j : ℕ}
    {a : SEIRD.Individual} (h : acc[j]? = some a) :
    SEIRD.seedOne acc j = acc.set j { a with state := St.I } := by
  unfold SEIRD.seedOne
  rw [h]

theorem seird_mkPopulation_noE (p : SEIRD.Config) (pd : ℕ → ℕ × ℕ) :
    SEIRD.noE (SEIRD.mkPopulation p pd) := by
  intro k a hk
  rw [seird_mkPopulation_get] at hk
  split at hk
  · cases hk
    simp [SEIRD.mkIndividual]
  · exact Option.noConfusion hk

theorem seird_seedInfected_noE {inds : List SEIRD.Individual}
    (h : SEIRD.noE inds) (seeds : List ℕ) :
    SEIRD.noE (SEIRD.seedInfected inds seeds) := by
  unfold SEIRD.seedInfected
  refine foldl_pres SEIRD.seedOne SEIRD.noE ?_ seeds inds h
  intro b j hb
  cases hj : b[j]? with
  | none => rw [seird_seedOne_eq_none hj]; exact hb
  | some a =>
    rw [seird_seedOne_eq_some hj]
    exact seird_noE_set hb (by simp)

theorem seird_distinctPos_of_posAt {l l' : List SEIRD.Individual}
    (hpos : ∀ k, SEIRD.posAt l' k = SEIRD.posAt l k) (hD : SEIRD.distinctPos l) :
    SEIRD.distinctPos l' := by
  intro j k a b hjk hj hk
  have h1 := hpos j
  have h2 := hpos k
  simp only [SEIRD.posAt, hj, Option.map] at h1
  simp only [SEIRD.posAt, hk, Option.map] at h2
  obtain ⟨aj, haj, hajpos⟩ := seird_posAt_some h1.symm
  obtain ⟨ak, hak, hakpos⟩ := seird_posAt_some h2.symm
  have h3 := hD j k aj ak hjk haj hak
  rw [hajpos, hakpos] at h3
  exact h3

theorem seird_dayStep_radius0 (p : SEIRD.Config) (hp : p.PROXIMITY = 0)
    (inds : List SEIRD.Individual) (ds : List ℚ)
    (hE : SEIRD.noE inds) (hD : SEIRD.distinctPos inds) :
    SEIRD.listEvol inds (SEIRD.dayStep p inds ds).1 ∧
    SEIRD.noE (SEIRD.dayStep p inds ds).1 ∧
    (∀ k, SEIRD.stAt inds k = some St.S →
      SEIRD.stAt (SEIRD.dayStep p inds ds).1 k = some St.S) := by
  unfold SEIRD.dayStep
  refine foldl_pres (SEIRD.stepAgentAt p)
    (fun acc => SEIRD.listEvol inds acc.1 ∧ SEIRD.noE acc.1 ∧
      (∀ k, SEIRD.stAt inds k = some St.S → SEIRD.stAt acc.1 k = some St.S)) ?_
    (List.range inds.length) (inds, ds) ⟨seird_listEvol_refl inds, hE, fun _ h => h⟩
  intro b i hb
  exact seird_stepAgentAt_radius0 p hp inds hD b i hb.1 hb.2.1 hb.2.2

theorem seird_simLoop_radius0 (p : SEIRD.Config) (hp : p.PROXIMITY = 0) :
    ∀ (fuel day : ℕ) (inds : List SEIRD.Individual) (ds : List ℚ)
      (ts : List SEIRD.Snap),
      SEIRD.noE inds → SEIRD.distinctPos inds →
      (∀ snap ∈ (SEIRD.simLoop p fuel day inds ds ts).2.2, snap ∈ ts ∨ snap.e = 0) ∧
      (∀ k, SEIRD.stAt inds k = some St.S →
        SEIRD.stAt (SEIRD.simLoop p fuel day inds ds ts).1 k = some St.S) := by
  intro fuel
  induction fuel with
  | zero =>
    intro day inds ds ts hE hD
    exact ⟨fun snap hs => Or.inl hs, fun k h => h⟩
  | succ n ih =>
    intro day inds ds ts hE hD
    rw [SEIRD.simLoop]
    split
    · obtain ⟨hEvol, hE', hS'⟩ := seird_dayStep_radius0 p hp inds ds hE hD
      have hD' := seird_distinctPos_of_evol hEvol hD
      obtain ⟨ihsnap, ihS⟩ := ih (day + 1) (SEIRD.dayStep p inds ds).1
        (SEIRD.dayStep p inds ds).2
        (ts ++ [SEIRD.mkSnap (SEIRD.dayStep p inds ds).1]) hE' hD'
      constructor
      · intro snap hs
        rcases ihsnap snap hs with hmem | hz
        · rcases List.mem_append.mp hmem with hts | hnew
          · exact Or.inl hts
          · right
            have hsnap : snap = SEIRD.mkSnap (SEIRD.dayStep p inds ds).1 := by
              simpa using hnew
            rw [hsnap]
            exact seird_countE_zero hE'
        · exact Or.inr hz
      · intro k hk
        exact ihS k (hS' k hk)
    · exact ⟨fun snap hs => Or.inl hs, fun k h => h⟩

theorem seird_simLoop_ts_prefix (p : SEIRD.Config) :
    ∀ (fuel day : ℕ) (inds : List SEIRD.Individual) (ds : List ℚ)
      (ts : List SEIRD.Snap),
      ∃ rest, (SEIRD.simLoop p fuel day inds ds ts).2.2 = ts ++ rest := by
  intro fuel
  induction fuel with
  | zero => intro day inds ds ts; exact ⟨[], by simp [SEIRD.simLoop]⟩
  | succ n ih =>
    intro day inds ds ts
    rw [SEIRD.simLoop]
    split
    · obtain ⟨rest, hrest⟩ := ih (day + 1) (SEIRD.dayStep p inds ds).1
        (SEIRD.dayStep p inds ds).2 (ts ++ [SEIRD.mkSnap (SEIRD.dayStep p inds ds).1])
      exact ⟨[SEIRD.mkSnap (SEIRD.dayStep p inds ds).1] ++ rest, by rw [hrest, List.append_assoc]⟩
    · exact ⟨[], by simp⟩

theorem seird_simulate_length (p : SEIRD.Config) (pd : ℕ → ℕ × ℕ)
    (seeds : List ℕ) (ds : List ℚ) :
    (SEIRD.simulate p pd seeds ds).1.length = p.POPULATION_SIZE := by
  unfold SEIRD.simulate
  rw [(seird_simLoop_evol p (p.MAX_DAYS + 1) 0
    (SEIRD.seedInfected (SEIRD.mkPopulation p pd) seeds) ds []).1]
  rw [(seird_seedInfected_frame (SEIRD.mkPopulation p pd) seeds).1]
  unfold SEIRD.mkPopulation
  simp

theorem seirs_stepAgentAt_eq_some {acc : List SEIRS.Individual × List ℚ} {i : ℕ}
    {person : SEIRS.Individual} (p : SEIRS.Config) (h : acc.1[i]? = some person) :
    SEIRS.stepAgentAt p acc i =
      if person.state = St.E then
        if ((person.exposed_duration + 1 : ℕ) : ℚ) ≥ p.SIGMA then
          (acc.1.set i { person with state := St.I, exposed_duration := 0 }, acc.2)
        else (acc.1.set i { person with exposed_duration := person.exposed_duration + 1 }, acc.2)
      else if person.state = St.I then
        if (nextDraw acc.2).1 < p.GAMMA then
          (acc.1.set i { person with state := St.R }, (nextDraw acc.2).2)
        else
          SEIRS.contactPass p
            { person with modified_beta := decayMul person.modified_beta p.ALPHA }
            (acc.1.set i
               { person with modified_beta := decayMul person.modified_beta p.ALPHA },
             (nextDraw acc.2).2)
      else if person.state = St.R then
        if ((person.recovered_days + 1 : ℕ) : ℚ) ≥ p.MU then
          (acc.1.set i { person with state := St.S, recovered_days := 0 }, acc.2)
        else (acc.1.set i { person with recovered_days := person.recovered_days + 1 }, acc.2)
      else acc := by
  unfold SEIRS.stepAgentAt
  rw [h]

/-! ### Claim theorems -/

/-- C1: for a SEIRD agent that is Infectious at the start of its daily
update, the update evaluates three sequential, mutually exclusive branches:
a first draw below `GAMMA` leads to a second independent draw, giving Dead
when that draw is below `ETA` and Recovered otherwise; else a further
independent draw below `ETA` gives Dead; else the agent stays Infectious,
its effective transmission rate is multiplied by `(1 - ALPHA)`
(`decayMul`, see `decayMul_eq`), and the contact pass over
currently-Susceptible agents is run. -/
theorem seird_infectious_three_branches (p : SEIRD.Config)
    (acc : List SEIRD.Individual × List ℚ) (i : ℕ) (person : SEIRD.Individual)
    (hget : acc.1[i]? = some person) (hI : person.state = St.I)
    (d1 d2 : ℚ) (rest : List ℚ) (hds : acc.2 = d1 :: d2 :: rest) :
    (d1 < p.GAMMA → d2 < p.ETA →
      SEIRD.stepAgentAt p acc i = (acc.1.set i { person with state := St.D }, rest)) ∧
    (d1 < p.GAMMA → ¬ d2 < p.ETA →
      SEIRD.stepAgentAt p acc i = (acc.1.set i { person with state := St.R }, rest)) ∧
    (¬ d1 < p.GAMMA → d2 < p.ETA →
      SEIRD.stepAgentAt p acc i = (acc.1.set i { person with state := St.D }, rest)) ∧
    (¬ d1 < p.GAMMA → ¬ d2 < p.ETA →
      SEIRD.stepAgentAt p acc i =
        SEIRD.contactPass p
          { person with modified_beta := decayMul person.modified_beta p.ALPHA }
          (acc.1.set i
             { person with modified_beta := decayMul person.modified_beta p.ALPHA },
           rest)) := by
  rw [seird_stepAgentAt_eq_some p hget]
  have hnotE : ¬ person.state = St.E := by rw [hI]; simp
  rw [if_neg hnotE, if_pos hI, hds]
  simp only [nextDraw]
  refine ⟨?_, ?_, ?_, ?_⟩ <;> intro h1 h2
  · rw [if_pos h1, if_pos h2]
  · rw [if_pos h1, if_neg h2]
  · rw [if_neg h1, if_pos h2]
  · rw [if_neg h1, if_neg h2]

theorem seird_infectious_three_branches_witness :
    SEIRD.stepAgentAt
      { POPULATION_SIZE := 1, INITIAL_INFECTED := 1, PROXIMITY := 0, MAX_DAYS := 1,
        ALPHA := 0, BETA := 1, GAMMA := 1, SIGMA := 1, ETA := 1, MU := 1, KAPPA := 1,
        WIDTH := 0, HEIGHT := 0 }
      ([⟨0, 0, St.I, 0, 0, 1, 0⟩], [0, 0]) 0 =
      ([⟨0, 0, St.D, 0, 0, 1, 0⟩], []) := by
  have h := (seird_infectious_three_branches
    { POPULATION_SIZE := 1, INITIAL_INFECTED := 1, PROXIMITY := 0, MAX_DAYS := 1,
      ALPHA := 0, BETA := 1, GAMMA := 1, SIGMA := 1, ETA := 1, MU := 1, KAPPA := 1,
      WIDTH := 0, HEIGHT := 0 }
    ([⟨0, 0, St.I, 0, 0, 1, 0⟩], [0, 0]) 0 ⟨0, 0, St.I, 0, 0, 1, 0⟩
    rfl rfl 0 0 [] rfl).1 (by decide) (by decide)
  rw [h]
  decide

/-- C3 counterexample: a SEIRD run with `initial_infected = 0` produces an
empty time series — not the single day-0 record the claim requires — so no
day-0 (post-seeding) snapshot exists. -/
theorem seird_no_day0_snapshot_cex :
    (SEIRD.simulate
        { POPULATION_SIZE := 3, INITIAL_INFECTED := 0, PROXIMITY := 30, MAX_DAYS := 10,
          ALPHA := 0, BETA := 1, GAMMA := 1, SIGMA := 1, ETA := 0, MU := 1, KAPPA := 1,
          WIDTH := 0, HEIGHT := 0 }
        (fun _ => (0, 0)) [] []).2.2 = [] ∧
    (SEIRD.simulate
        { POPULATION_SIZE := 3, INITIAL_INFECTED := 0, PROXIMITY := 30, MAX_DAYS := 10,
          ALPHA := 0, BETA := 1, GAMMA := 1, SIGMA := 1, ETA := 0, MU := 1, KAPPA := 1,
          WIDTH := 0, HEIGHT := 0 }
        (fun _ => (0, 0)) [] []).2.2.length ≠ 1 := by
  constructor
  · decide
  · decide

/-- C3 amended: snapshots are appended only at the end of each simulated
day, so the time series has no day-0 (post-seeding) record: with no seeded
infected the loop body never runs and the series is empty (for the SEIRD
and the SIR variants alike), and when the seeded population is active the
first record of the series is the state at the end of day 1 — the result
of one `dayStep` — not the post-seeding state. -/
theorem seird_sir_snapshots_start_at_day1 :
    (∀ (p : SEIRD.Config) (pd : ℕ → ℕ × ℕ) (ds : List ℚ),
      (SEIRD.simulate p pd [] ds).2.2 = []) ∧
    (∀ (q : SIRm.Config) (pd : ℕ → ℕ × ℕ) (ds : List ℚ),
      (SIRm.simulate q pd [] ds).2.2 = []) ∧
    (∀ (p : SEIRD.Config) (pd : ℕ → ℕ × ℕ) (seeds : List ℕ) (ds : List ℚ),
      SEIRD.activeB (SEIRD.seedInfected (SEIRD.mkPopulation p pd) seeds) = true →
      (SEIRD.simulate p pd seeds ds).2.2.head? =
        some (SEIRD.mkSnap
          (SEIRD.dayStep p (SEIRD.seedInfected (SEIRD.mkPopulation p pd) seeds) ds).1)) := by
  refine ⟨?_, ?_, ?_⟩
  · intro p pd ds
    unfold SEIRD.simulate
    rw [show SEIRD.seedInfected (SEIRD.mkPopulation p pd) [] = SEIRD.mkPopulation p pd
          from rfl]
    rw [seird_simLoop_stop p _ _ _ _ _ (seird_mkPopulation_inactive p pd)]
  · intro q pd ds
    unfold SIRm.simulate
    rw [show SIRm.seedInfected (SIRm.mkPopulation q pd) [] = SIRm.mkPopulation q pd
          from rfl]
    rw [sirm_simLoop_stop q _ _ _ _ _ (sirm_mkPopulation_inactive q pd)]
  · intro p pd seeds ds hact
    unfold SEIRD.simulate
    rw [SEIRD.simLoop, if_pos ⟨hact, Nat.zero_le _⟩]
    obtain ⟨rest, hrest⟩ := seird_simLoop_ts_prefix p p.MAX_DAYS 1
      (SEIRD.dayStep p (SEIRD.seedInfected (SEIRD.mkPopulation p pd) seeds) ds).1
      (SEIRD.dayStep p (SEIRD.seedInfected (SEIRD.mkPopulation p pd) seeds) ds).2
      ([] ++ [SEIRD.mkSnap
        (SEIRD.dayStep p (SEIRD.seedInfected (SEIRD.mkPopulation p pd) seeds) ds).1])
    rw [hrest]
    simp

theorem seird_sir_snapshots_start_at_day1_witness :
    SEIRD.activeB (SEIRD.seedInfected (SEIRD.mkPopulation
      { POPULATION_SIZE := 1, INITIAL_INFECTED := 1, PROXIMITY := 0, MAX_DAYS := 0,
        ALPHA := 0, BETA := 1, GAMMA := 1, SIGMA := 1, ETA := 0, MU := 1, KAPPA := 1,
        WIDTH := 0, HEIGHT := 0 } (fun _ => (0, 0))) [0]) = true ∧
    (SEIRD.simulate
      { POPULATION_SIZE := 1, INITIAL_INFECTED := 1, PROXIMITY := 0, MAX_DAYS := 0,
        ALPHA := 0, BETA := 1, GAMMA := 1, SIGMA := 1, ETA := 0, MU := 1, KAPPA := 1,
        WIDTH := 0, HEIGHT := 0 } (fun _ => (0, 0)) [0] []).2.2.head? =
      some (SEIRD.mkSnap (SEIRD.dayStep
        { POPULATION_SIZE := 1, INITIAL_INFECTED := 1, PROXIMITY := 0, MAX_DAYS := 0,
          ALPHA := 0, BETA := 1, GAMMA := 1, SIGMA := 1, ETA := 0, MU := 1, KAPPA := 1,
          WIDTH := 0, HEIGHT := 0 }
        (SEIRD.seedInfected (SEIRD.mkPopulation
          { POPULATION_SIZE := 1, INITIAL_INFECTED := 1, PROXIMITY := 0, MAX_DAYS := 0,
            ALPHA := 0, BETA := 1, GAMMA := 1, SIGMA := 1, ETA := 0, MU := 1, KAPPA := 1,
            WIDTH := 0, HEIGHT := 0 } (fun _ => (0, 0))) [0]) []).1) := by
  constructor
  · decide
  · exact seird_sir_snapshots_start_at_day1.2.2
      { POPULATION_SIZE := 1, INITIAL_INFECTED := 1, PROXIMITY := 0, MAX_DAYS := 0,
        ALPHA := 0, BETA := 1, GAMMA := 1, SIGMA := 1, ETA := 0, MU := 1, KAPPA := 1,
        WIDTH := 0, HEIGHT := 0 } (fun _ => (0, 0)) [0] [] (by decide)

/-- C4 counterexample (Scenario B and more): a configuration with
`initial_infected = 0`, a negative transmission and recovery rate, a
negative proximity radius and a zero day horizon is accepted without any
validation failure: the population of 100 agents is constructed and the
run completes, returning an empty time series. -/
theorem seird_scenarioB_no_validation_cex :
    (SEIRD.simulate
        { POPULATION_SIZE := 100, INITIAL_INFECTED := 0, PROXIMITY := -5, MAX_DAYS := 0,
          ALPHA := 0, BETA := mkRat (-1) 1, GAMMA := mkRat (-1) 1, SIGMA := 0, ETA := 0,
          MU := 0, KAPPA := 0, WIDTH := 0, HEIGHT := 0 }
        (fun _ => (0, 0)) [] []).1.length = 100 ∧
    (SEIRD.simulate
        { POPULATION_SIZE := 100, INITIAL_INFECTED := 0, PROXIMITY := -5, MAX_DAYS := 0,
          ALPHA := 0, BETA := mkRat (-1) 1, GAMMA := mkRat (-1) 1, SIGMA := 0, ETA := 0,
          MU := 0, KAPPA := 0, WIDTH := 0, HEIGHT := 0 }
        (fun _ => (0, 0)) [] []).2.2 = [] := by
  constructor
  · decide
  · decide

/-- C4 amended: neither `SEIRD.__init__` nor `SEIRD.simulate` validates the
configuration: every parameter combination — including non-positive rates,
radius or day count and a zero initial infected count — is accepted, and
the full agent population is always constructed. (The only runtime failure
is `random.sample` raising when `initial_infected` exceeds the population
size, and that happens in `simulate` after `self.individuals` has been
built, not before.) -/
theorem seird_no_validation_population_always_built :
    ∀ (p : SEIRD.Config) (pd : ℕ → ℕ × ℕ) (seeds : List ℕ) (ds : List ℚ),
      (SEIRD.simulate p pd seeds ds).1.length = p.POPULATION_SIZE := by
  intro p pd seeds ds
  exact seird_simulate_length p pd seeds ds

/-- C5: for every configuration and draw sequence, a run appends at most
`MAX_DAYS + 1` snapshots to the time series, and the day loop stops as
soon as no agent is Exposed or Infectious (for the pure-SIR variant, as
soon as no agent is Infectious): an inactive population makes the loop
return immediately, appending nothing. -/
theorem seird_sir_termination_bound :
    (∀ (p : SEIRD.Config) (pd : ℕ → ℕ × ℕ) (seeds : List ℕ) (ds : List ℚ),
      (SEIRD.simulate p pd seeds ds).2.2.length ≤ p.MAX_DAYS + 1) ∧
    (∀ (p : SEIRD.Config) (fuel day : ℕ) (inds : List SEIRD.Individual)
       (ds : List ℚ) (ts : List SEIRD.Snap),
      SEIRD.activeB inds = false →
      SEIRD.simLoop p fuel day inds ds ts = (inds, ds, ts)) ∧
    (∀ (q : SIRm.Config) (pd : ℕ → ℕ × ℕ) (seeds : List ℕ) (ds : List ℚ),
      (SIRm.simulate q pd seeds ds).2.2.length ≤ q.MAX_DAYS + 1) ∧
    (∀ (q : SIRm.Config) (fuel day : ℕ) (inds : List SIRm.Individual)
       (ds : List ℚ) (ts : List SIRm.Snap),
      SIRm.activeB inds = false →
      SIRm.simLoop q fuel day inds ds ts = (inds, ds, ts)) := by
  refine ⟨?_, ?_, ?_, ?_⟩
  · intro p pd seeds ds
    unfold SEIRD.simulate
    have h := seird_simLoop_len p (p.MAX_DAYS + 1) 0
      (SEIRD.seedInfected (SEIRD.mkPopulation p pd) seeds) ds []
    simpa using h
  · intro p fuel day inds ds ts h
    exact seird_simLoop_stop p fuel day inds ds ts h
  · intro q pd seeds ds
    unfold SIRm.simulate
    have h := sirm_simLoop_len q (q.MAX_DAYS + 1) 0
      (SIRm.seedInfected (SIRm.mkPopulation q pd) seeds) ds []
    simpa using h
  · intro q fuel day inds ds ts h
    exact sirm_simLoop_stop q fuel day inds ds ts h

theorem seird_sir_termination_bound_witness :
    SEIRD.activeB ([] : List SEIRD.Individual) = false ∧
    SEIRD.simLoop
      { POPULATION_SIZE := 0, INITIAL_INFECTED := 0, PROXIMITY := 0, MAX_DAYS := 5,
        ALPHA := 0, BETA := 1, GAMMA := 1, SIGMA := 1, ETA := 0, MU := 1, KAPPA := 1,
        WIDTH := 0, HEIGHT := 0 } 6 0 [] [] [] = ([], [], []) ∧
    SIRm.activeB ([] : List SIRm.Individual) = false ∧
    SIRm.simLoop
      { POPULATION_SIZE := 0, INITIAL_INFECTED := 0, PROXIMITY := 0, MAX_DAYS := 5,
        ALPHA := 0, BETA := 1, GAMMA := 1 } 6 0 [] [] [] = ([], [], []) := by
  refine ⟨by decide, ?_, by decide, ?_⟩
  · exact seird_sir_termination_bound.2.1
      { POPULATION_SIZE := 0, INITIAL_INFECTED := 0, PROXIMITY := 0, MAX_DAYS := 5,
        ALPHA := 0, BETA := 1, GAMMA := 1, SIGMA := 1, ETA := 0, MU := 1, KAPPA := 1,
        WIDTH := 0, HEIGHT := 0 } 6 0 [] [] [] (by decide)
  · exact seird_sir_termination_bound.2.2.2
      { POPULATION_SIZE := 0, INITIAL_INFECTED := 0, PROXIMITY := 0, MAX_DAYS := 5,
        ALPHA := 0, BETA := 1, GAMMA := 1 } 6 0 [] [] [] (by decide)

/-- C6 counterexample: the initial seeding forces an agent to Infectious
without touching `infection_count`: right after seeding — the start of the
run — the seeded agent is Infectious with `infection_count = 0`, although
it has entered the Infectious compartment once (via seeding), so the
claimed count (which includes seeding) would be 1. -/
theorem seird_seeded_agent_zero_count_cex :
    ((SEIRD.seedInfected (SEIRD.mkPopulation
        { POPULATION_SIZE := 2, INITIAL_INFECTED := 1, PROXIMITY := 30, MAX_DAYS := 10,
          ALPHA := 0, BETA := 1, GAMMA := 1, SIGMA := 1, ETA := 0, MU := 1, KAPPA := 1,
          WIDTH := 0, HEIGHT := 0 } (fun _ => (0, 0))) [0])[0]?).map
      (fun a => (a.state, a.infection_count)) = some (St.I, 0) := by
  decide

/-- C6 amended: `infection_count` counts only the Exposed-to-Infectious
transitions of the state machine: it is 0 for every agent of the
post-seeding population (the seeding does not increment it), it is
incremented by exactly one when an agent leaves Exposed for Infectious,
and it never decreases over the day loop. -/
theorem seird_infection_count_transitions_and_monotone :
    (∀ (p : SEIRD.Config) (pd : ℕ → ℕ × ℕ) (seeds : List ℕ) (k : ℕ),
      SEIRD.cntAt (SEIRD.seedInfected (SEIRD.mkPopulation p pd) seeds) k = 0) ∧
    (∀ (p : SEIRD.Config) (acc : List SEIRD.Individual × List ℚ) (i : ℕ)
       (person : SEIRD.Individual),
      acc.1[i]? = some person → person.state = St.E →
      ((person.exposed_duration + 1 : ℕ) : ℚ) ≥ p.SIGMA →
      SEIRD.cntAt (SEIRD.stepAgentAt p acc i).1 i = SEIRD.cntAt acc.1 i + 1 ∧
      SEIRD.stAt (SEIRD.stepAgentAt p acc i).1 i = some St.I) ∧
    (∀ (p : SEIRD.Config) (fuel day : ℕ) (inds : List SEIRD.Individual)
       (ds : List ℚ) (ts : List SEIRD.Snap) (k : ℕ),
      SEIRD.cntAt inds k ≤
        SEIRD.cntAt (SEIRD.simLoop p fuel day inds ds ts).1 k) := by
  refine ⟨?_, ?_, ?_⟩
  · intro p pd seeds k
    rw [(seird_seedInfected_frame (SEIRD.mkPopulation p pd) seeds).2.2 k]
    exact seird_mkPopulation_cnt p pd k
  · intro p acc i person hget hE hsig
    rw [seird_stepAgentAt_eq_some p hget, if_pos hE, if_pos hsig]
    constructor
    · rw [SEIRD.cntAt, SEIRD.cntAt, hget, getElem?_set_of_some hget _ i, if_pos rfl]
      simp
    · rw [SEIRD.stAt, getElem?_set_of_some hget _ i, if_pos rfl]
      simp
  · intro p fuel day inds ds ts k
    exact seird_listEvol_cntAt (seird_simLoop_evol p fuel day inds ds ts) k

theorem seird_infection_count_transitions_and_monotone_witness :
    SEIRD.cntAt (SEIRD.stepAgentAt
      { POPULATION_SIZE := 1, INITIAL_INFECTED := 0, PROXIMITY := 0, MAX_DAYS := 1,
        ALPHA := 0, BETA := 1, GAMMA := 1, SIGMA := 1, ETA := 0, MU := 1, KAPPA := 1,
        WIDTH := 0, HEIGHT := 0 }
      ([⟨0, 0, St.E, 0, 0, 1, 0⟩], []) 0).1 0 =
      SEIRD.cntAt [(⟨0, 0, St.E, 0, 0, 1, 0⟩ : SEIRD.Individual)] 0 + 1 := by
  exact (seird_infection_count_transitions_and_monotone.2.1
    { POPULATION_SIZE := 1, INITIAL_INFECTED := 0, PROXIMITY := 0, MAX_DAYS := 1,
      ALPHA := 0, BETA := 1, GAMMA := 1, SIGMA := 1, ETA := 0, MU := 1, KAPPA := 1,
      WIDTH := 0, HEIGHT := 0 }
    ([⟨0, 0, St.E, 0, 0, 1, 0⟩], []) 0 ⟨0, 0, St.E, 0, 0, 1, 0⟩
    rfl rfl (by decide)).1

/-- C7 counterexample: with proximity radius 0, a susceptible agent that
shares its exact position with an infectious agent can still be exposed
(`distance 0 ≤ 0`): in a two-agent run with both agents at (0,0) the day-1
snapshot already shows one Exposed agent, so "zero new exposures ever
occur" fails for co-located placements. -/
theorem seird_radius0_colocated_exposure_cex :
    (SEIRD.simulate
        { POPULATION_SIZE := 2, INITIAL_INFECTED := 1, PROXIMITY := 0, MAX_DAYS := 1,
          ALPHA := 0, BETA := 1, GAMMA := mkRat 1 2, SIGMA := 10, ETA := mkRat 1 2,
          MU := 120, KAPPA := 100, WIDTH := 0, HEIGHT := 0 }
        (fun _ => (0, 0)) [0]
        [mkRat 1 2, mkRat 1 2, 0, mkRat 1 2, mkRat 1 2]).2.2[0]? =
      some { s := 0, e := 1, i := 1, r := 0, d := 0 } := by
  decide

/-- C7 amended: with proximity radius 0 exposures can only happen between
agents at the same exact position; when the constructed population has
pairwise distinct positions, no exposure ever occurs in the whole run:
every snapshot records zero Exposed agents and every agent that is
Susceptible after seeding is still Susceptible at the end of the run. -/
theorem seird_radius0_no_exposure (p : SEIRD.Config) (pd : ℕ → ℕ × ℕ)
    (seeds : List ℕ) (ds : List ℚ) (hp : p.PROXIMITY = 0)
    (hD : SEIRD.distinctPos (SEIRD.mkPopulation p pd)) :
    (∀ snap ∈ (SEIRD.simulate p pd seeds ds).2.2, snap.e = 0) ∧
    (∀ k, SEIRD.stAt (SEIRD.seedInfected (SEIRD.mkPopulation p pd) seeds) k =
            some St.S →
      SEIRD.stAt (SEIRD.simulate p pd seeds ds).1 k = some St.S) := by
  have hE := seird_seedInfected_noE (seird_mkPopulation_noE p pd) seeds
  have hD' := seird_distinctPos_of_posAt
    (seird_seedInfected_frame (SEIRD.mkPopulation p pd) seeds).2.1 hD
  obtain ⟨hsnap, hS⟩ := seird_simLoop_radius0 p hp (p.MAX_DAYS + 1) 0
    (SEIRD.seedInfected (SEIRD.mkPopulation p pd) seeds) ds [] hE hD'
  constructor
  · intro snap hs
    rcases hsnap snap hs with hmem | hz
    · exact absurd hmem (List.not_mem_nil snap)
    · exact hz
  · intro k hk
    exact hS k hk

theorem seird_radius0_no_exposure_witness :
    (0 : ℤ) = 0 ∧
    SEIRD.distinctPos (SEIRD.mkPopulation
      { POPULATION_SIZE := 2, INITIAL_INFECTED := 1, PROXIMITY := 0, MAX_DAYS := 2,
        ALPHA := 0, BETA := 1, GAMMA := 1, SIGMA := 1, ETA := 0, MU := 120,
        KAPPA := 100, WIDTH := 1, HEIGHT := 0 } (fun k => (k, 0))) ∧
    (∀ snap ∈ (SEIRD.simulate
        { POPULATION_SIZE := 2, INITIAL_INFECTED := 1, PROXIMITY := 0, MAX_DAYS := 2,
          ALPHA := 0, BETA := 1, GAMMA := 1, SIGMA := 1, ETA := 0, MU := 120,
          KAPPA := 100, WIDTH := 1, HEIGHT := 0 } (fun k => (k, 0)) [0]
        [0, 0]).2.2, snap.e = 0) := by
  have hD : SEIRD.distinctPos (SEIRD.mkPopulation
      { POPULATION_SIZE := 2, INITIAL_INFECTED := 1, PROXIMITY := 0, MAX_DAYS := 2,
        ALPHA := 0, BETA := 1, GAMMA := 1, SIGMA := 1, ETA := 0, MU := 120,
        KAPPA := 100, WIDTH := 1, HEIGHT := 0 } (fun k => (k, 0))) := by
    intro j k a b hjk hj hk
    rw [seird_mkPopulation_get] at hj hk
    split at hj
    · split at hk
      · cases hj
        cases hk
        rename_i hjlt hklt
        have hj2 : j < 2 := hjlt
        have hk2 : k < 2 := hklt
        simp only [SEIRD.mkIndividual, SEIRD.Individual.pos]
        intro hcontra
        apply hjk
        have h1 := congrArg Prod.fst hcontra
        simp at h1
        omega
      · exact Option.noConfusion hk
    · exact Option.noConfusion hj
  refine ⟨rfl, hD, ?_⟩
  exact (seird_radius0_no_exposure
    { POPULATION_SIZE := 2, INITIAL_INFECTED := 1, PROXIMITY := 0, MAX_DAYS := 2,
      ALPHA := 0, BETA := 1, GAMMA := 1, SIGMA := 1, ETA := 0, MU := 120,
      KAPPA := 100, WIDTH := 1, HEIGHT := 0 } (fun k => (k, 0)) [0] [0, 0] rfl hD).1

/-- C8: on a Recovered-to-Susceptible waning transition (recovered days
reaching `MU`), the agent record changes only in its compartment and its
`recovered_days`: the result is literally the old record with
`state := St.S` and `recovered_days := 0`, every other field — in
particular `modified_beta`, the decayed effective transmission rate —
kept unchanged; this holds for the SEIRS variant and for the SEIRD
variant (where the transition additionally requires
`infection_count < KAPPA`). -/
theorem seirs_seird_waning_only_state_and_days :
    (∀ (p : SEIRS.Config) (acc : List SEIRS.Individual × List ℚ) (i : ℕ)
       (person : SEIRS.Individual),
      acc.1[i]? = some person → person.state = St.R →
      ((person.recovered_days + 1 : ℕ) : ℚ) ≥ p.MU →
      SEIRS.stepAgentAt p acc i =
        (acc.1.set i { person with state := St.S, recovered_days := 0 }, acc.2) ∧
      ((acc.1.set i { person with state := St.S, recovered_days := 0 })[i]?).map
          SEIRS.Individual.modified_beta = some person.modified_beta) ∧
    (∀ (p : SEIRD.Config) (acc : List SEIRD.Individual × List ℚ) (i : ℕ)
       (person : SEIRD.Individual),
      acc.1[i]? = some person → person.state = St.R →
      ¬ (person.infection_count : ℤ) ≥ p.KAPPA →
      ((person.recovered_days + 1 : ℕ) : ℚ) ≥ p.MU →
      SEIRD.stepAgentAt p acc i =
        (acc.1.set i { person with state := St.S, recovered_days := 0 }, acc.2) ∧
      ((acc.1.set i { person with state := St.S, recovered_days := 0 })[i]?).map
          SEIRD.Individual.modified_beta = some person.modified_beta) := by
  constructor
  · intro p acc i person hget hR hmu
    constructor
    · rw [seirs_stepAgentAt_eq_some p hget]
      rw [if_neg (by rw [hR]; simp), if_neg (by rw [hR]; simp), if_pos hR, if_pos hmu]
    · rw [getElem?_set_of_some hget _ i, if_pos rfl]
      simp
  · intro p acc i person hget hR hkap hmu
    constructor
    · rw [seird_stepAgentAt_eq_some p hget]
      rw [if_neg (by rw [hR]; simp), if_neg (by rw [hR]; simp), if_pos hR,
        if_neg hkap, if_pos hmu]
    · rw [getElem?_set_of_some hget _ i, if_pos rfl]
      simp

theorem seirs_seird_waning_only_state_and_days_witness :
    SEIRS.stepAgentAt
      { POPULATION_SIZE := 1, INITIAL_INFECTED := 0, PROXIMITY := 0, MAX_DAYS := 1,
        ALPHA := 0, BETA := 1, GAMMA := 1, SIGMA := 1, MU := 1, WIDTH := 0, HEIGHT := 0 }
      ([⟨0, 0, St.R, 0, 0, mkRat 3 7⟩], []) 0 =
      ([⟨0, 0, St.S, 0, 0, mkRat 3 7⟩], []) ∧
    SEIRD.stepAgentAt
      { POPULATION_SIZE := 1, INITIAL_INFECTED := 0, PROXIMITY := 0, MAX_DAYS := 1,
        ALPHA := 0, BETA := 1, GAMMA := 1, SIGMA := 1, ETA := 0, MU := 1, KAPPA := 1,
        WIDTH := 0, HEIGHT := 0 }
      ([⟨0, 0, St.R, 0, 0, mkRat 3 7, 0⟩], []) 0 =
      ([⟨0, 0, St.S, 0, 0, mkRat 3 7, 0⟩], []) := by
  constructor
  · have h := (seirs_seird_waning_only_state_and_days.1
      { POPULATION_SIZE := 1, INITIAL_INFECTED := 0, PROXIMITY := 0, MAX_DAYS := 1,
        ALPHA := 0, BETA := 1, GAMMA := 1, SIGMA := 1, MU := 1, WIDTH := 0, HEIGHT := 0 }
      ([⟨0, 0, St.R, 0, 0, mkRat 3 7⟩], []) 0 ⟨0, 0, St.R, 0, 0, mkRat 3 7⟩
      rfl rfl (by decide)).1
    rw [h]
    decide
  · have h := (seirs_seird_waning_only_state_and_days.2
      { POPULATION_SIZE := 1, INITIAL_INFECTED := 0, PROXIMITY := 0, MAX_DAYS := 1,
        ALPHA := 0, BETA := 1, GAMMA := 1, SIGMA := 1, ETA := 0, MU := 1, KAPPA := 1,
        WIDTH := 0, HEIGHT := 0 }
      ([⟨0, 0, St.R, 0, 0, mkRat 3 7, 0⟩], []) 0 ⟨0, 0, St.R, 0, 0, mkRat 3 7, 0⟩
      rfl rfl (by decide) (by decide)).1
    rw [h]
    decide

/-- C9: in the live-visualization branch of `SEIRS.simulate` the end-of-day
recording swaps two series: `r_data` receives the exposed count and
`e_data` the recovered count. On a population with one Exposed agent and
no Recovered agent, the value appended to the recovered series is 1
although the recovered count is 0 (and the non-live recording
`recordPlain` of the same state appends the correct counts). -/
theorem seirs_live_record_swaps_exposed_recovered :
    SEIRS.recordLive [⟨0, 0, St.E, 0, 0, 1⟩] [] [] [] [] =
      ([0], [0], [1], [0]) ∧
    SEIRS.countState St.R [⟨0, 0, St.E, 0, 0, 1⟩] = 0 ∧
    SEIRS.countState St.E [⟨0, 0, St.E, 0, 0, 1⟩] = 1 ∧
    SEIRS.recordPlain [⟨0, 0, St.E, 0, 0, 1⟩] [] [] [] [] =
      ([0], [0], [0], [1]) := by
  refine ⟨?_, ?_, ?_, ?_⟩ <;> decide

/-- C10: an agent's position is assigned exactly once, at construction,
from the two injected `randint(0, width)` / `randint(0, height)` draws —
so it lies in the inclusive ranges `[0, WIDTH]` and `[0, HEIGHT]` — and no
operation of the run ever modifies it: after seeding and the entire day
loop, every agent's position is still the one assigned by the
constructor. -/
theorem seird_positions_constructed_once_and_fixed :
    (∀ (beta : ℚ) (rx ry w h : ℕ),
      (SEIRD.mkIndividual beta rx ry w h).x = rx % (w + 1) ∧
      (SEIRD.mkIndividual beta rx ry w h).y = ry % (h + 1) ∧
      (SEIRD.mkIndividual beta rx ry w h).x ≤ w ∧
      (SEIRD.mkIndividual beta rx ry w h).y ≤ h) ∧
    (∀ (p : SEIRD.Config) (pd : ℕ → ℕ × ℕ) (seeds : List ℕ) (ds : List ℚ) (k : ℕ),
      SEIRD.posAt (SEIRD.simulate p pd seeds ds).1 k =
        SEIRD.posAt (SEIRD.mkPopulation p pd) k) := by
  constructor
  · intro beta rx ry w h
    refine ⟨rfl, rfl, ?_, ?_⟩
    · exact Nat.lt_succ_iff.mp (Nat.mod_lt rx (Nat.succ_pos w))
    · exact Nat.lt_succ_iff.mp (Nat.mod_lt ry (Nat.succ_pos h))
  · intro p pd seeds ds k
    unfold SEIRD.simulate
    rw [seird_listEvol_posAt (seird_simLoop_evol p (p.MAX_DAYS + 1) 0
      (SEIRD.seedInfected (SEIRD.mkPopulation p pd) seeds) ds []) k]
    exact (seird_seedInfected_frame (SEIRD.mkPopulation p pd) seeds).2.1 k

theorem seird_states_partition (inds : List SEIRD.Individual) :
    SEIRD.countState St.S inds + SEIRD.countState St.E inds +
    SEIRD.countState St.I inds + SEIRD.countState St.R inds +
    SEIRD.countState St.D inds + SEIRD.countState St.Immune inds = inds.length := by
  induction inds with
  | nil => rfl
  | cons a t ih =>
    simp only [SEIRD.countState, List.countP_cons, List.length_cons] at ih ⊢
    cases ha : a.state <;> simp [ha] <;> omega

/-- C2: the compartments do partition the population — the six per-state
counts always sum to the population size — but the non-live branch of
`SEIRD.simulate` records only the S, E, I, R and D counts, never the
Immune count, so on a run in which an agent becomes Immune the recorded
counts stop summing to `POPULATION_SIZE`: in this two-agent run
(`KAPPA = 1`) the day-by-day recorded sums are 2, 2, 1, 1 — the day-3 and
day-4 snapshots undercount the population by the one Immune agent. -/
theorem seird_snapshot_sum_misses_immune :
    (∀ inds : List SEIRD.Individual,
      SEIRD.countState St.S inds + SEIRD.countState St.E inds +
      SEIRD.countState St.I inds + SEIRD.countState St.R inds +
      SEIRD.countState St.D inds + SEIRD.countState St.Immune inds = inds.length) ∧
    ((SEIRD.simulate
        { POPULATION_SIZE := 2, INITIAL_INFECTED := 1, PROXIMITY := 0, MAX_DAYS := 3,
          ALPHA := 0, BETA := 1, GAMMA := mkRat 1 2, SIGMA := 1, ETA := mkRat 1 2,
          MU := 1000, KAPPA := 1, WIDTH := 0, HEIGHT := 0 }
        (fun _ => (0, 0)) [0]
        [mkRat 1 2, mkRat 1 2, 0, mkRat 1 2, mkRat 1 2, 0, mkRat 1 2, mkRat 1 2,
         mkRat 1 2, mkRat 1 2, mkRat 1 2]).2.2.map
      (fun snap => snap.s + snap.e + snap.i + snap.r + snap.d)) = [2, 2, 1, 1] := by
  exact ⟨seird_states_partition, by decide⟩
